import Mathlib

/-!
Verification development for the ws-sync server runtime.

We give a shallow embedding of the core of the Sync engine
(src/ws_sync/sync.py), the Session layer (src/ws_sync/session.py) and the
decorator marker machinery (src/ws_sync/decorators.py), and prove the
behavioural claims of the specification against it.

JSON values are modelled by an inductive type with decidable equality;
Python dictionaries are modelled by ordered association lists (Python dicts
preserve insertion order, and assignment to an existing key keeps its
position), and mutation is made explicit by state passing.  Exceptions
(KeyError, ValidationError, AttributeError, ValueError) are modelled with
Option / explicit error components.
-/

namespace WsSync

/-- JSON-like wire value.  `bytes` models a binary frame payload
(`receive_bytes` in session.py); `strs` models a JSON array of strings,
the only structured value the runtime itself constructs
(`list(self.running_tasks.keys())`).  All other attribute / parameter
values flow through the engine opaquely (they are only copied, compared,
or passed to the per-attribute (de)serializers, which we model as
arbitrary functions on `Val`), so an atomic value universe is adequate. -/
inductive Val where
  | null
  | bool (b : Bool)
  | num (n : Int)
  | str (s : String)
  | bytes (bs : List Nat)
  | strs (xs : List String)
deriving DecidableEq, Repr

/-- Ordered association list standing for a Python dict. -/
abbrev Dict (α : Type) := List (String × α)

/-- Python `d.get(k)` / `d[k]`-lookup on an insertion-ordered dict. -/
def alookup {α : Type} : Dict α → String → Option α
  | [], _ => none
  | (k, v) :: rest, key => if k = key then some v else alookup rest key

/-- Python `d[k] = v`: replace the value in place if the key exists,
otherwise append at the end (dict insertion-order semantics). -/
def upsert {α : Type} : Dict α → String → α → Dict α
  | [], key, v => [(key, v)]
  | (k, w) :: rest, key, v =>
    if k = key then (k, v) :: rest else (k, w) :: upsert rest key v

/-- Python `del d[k]` resp. `d.pop(k, None)`: drop the entry. -/
def eraseKey {α : Type} : Dict α → String → Dict α
  | [], _ => []
  | (k0, v0) :: rest, key =>
    if k0 = key then eraseKey rest key else (k0, v0) :: eraseKey rest key

/-! ## Key scoping (sync.py: sync_key_scope, get_current_sync_key_prefix,
_apply_sync_key_prefix) -/

/-- Embeds the Python expression joining the stack with "/"
(`"/".join(stack)` in `get_current_sync_key_prefix`). -/
def joinStack : List String → String
  | [] => ""
  | [s] => s
  | s :: rest => s ++ "/" ++ joinStack rest

/-- Embeds `sync_key_scope.__enter__`: the segment is pushed onto the
task-local stack iff it is truthy, i.e. neither None nor the empty
string. -/
def pushScope (p : Option String) (stack : List String) : List String :=
  match p with
  | some s => if s = "" then stack else stack ++ [s]
  | none => stack

/-- Embeds `get_current_sync_key_prefix`: the `/`-joined stack, or none
when the stack is empty or unset. -/
def currentScopeJoin (stack : List String) : Option String :=
  if stack = [] then none else some (joinStack stack)

/-- Embeds `_apply_sync_key_prefix`: prepend the joined stack with a `/`
separator when it is truthy, else return the key unchanged. -/
def scopedKey (stack : List String) (key : String) : String :=
  match currentScopeJoin stack with
  | some p => if p = "" then key else p ++ "/" ++ key
  | none => key

/-! ## Event naming (sync.py lines 127-159) -/

def set_event (key : String) : String := "_SET:" ++ key

def get_event (key : String) : String := "_GET:" ++ key

def patch_event (key : String) : String := "_PATCH:" ++ key

def action_event (key : String) : String := "_ACTION:" ++ key

def task_start_event (key : String) : String := "_TASK_START:" ++ key

def task_cancel_event (key : String) : String := "_TASK_CANCEL:" ++ key

/-! ## Session layer (session.py) -/

/-- Identity of a registered callback.  Each Sync registers its six bound
methods under its (already prefixed) key, plus at most the init handler
`_send_state`; the bound methods of distinct Syncs are distinct objects,
which the key argument captures. -/
inductive Handler where
  | sendState (key : String)
  | setState (key : String)
  | patchState (key : String)
  | actionHandler (key : String)
  | taskStart (key : String)
  | taskCancel (key : String)
deriving DecidableEq, Repr

/-- The Session fields the claims are about: the event-handler table and
the ordered init-handler list. -/
structure SessionSt where
  event_handlers : Dict Handler
  init_handlers : List Handler
deriving DecidableEq, Repr

/-- Embeds `Session.register_event`: insert or replace (a replace logs a
warning, which carries no state). -/
def register_event (ses : SessionSt) (event : String) (h : Handler) : SessionSt :=
  { ses with event_handlers := upsert ses.event_handlers event h }

/-- Embeds `Session.deregister_event`: remove if present, warn-and-return
otherwise. -/
def deregister_event (ses : SessionSt) (event : String) : SessionSt :=
  if alookup ses.event_handlers event = none then ses
  else { ses with event_handlers := eraseKey ses.event_handlers event }

/-- Embeds `Session.register_init`: append to the init-handler list. -/
def register_init (ses : SessionSt) (h : Handler) : SessionSt :=
  { ses with init_handlers := ses.init_handlers ++ [h] }

/-- Embeds Python `list.remove`: drop the first occurrence; `none` models
the ValueError raised when the element is absent. -/
def removeFirst : List Handler → Handler → Option (List Handler)
  | [], _ => none
  | x :: xs, h => if x = h then some xs else (removeFirst xs h).map (x :: ·)

/-- Embeds `Sync._register_event_handlers` (construction step 7): register
GET/SET/PATCH, the init handler when `send_on_init`, then
ACTION/TASK_START/TASK_CANCEL.  `self.actions`, `self.tasks` and
`self.task_cancels` are the closures returned by `_create_action_handler`
and `_create_task_handlers`, hence always truthy. -/
def register_event_handlers (ses : SessionSt) (key : String) (send_on_init : Bool) :
    SessionSt :=
  let s1 := register_event ses (get_event key) (Handler.sendState key)
  let s2 := register_event s1 (set_event key) (Handler.setState key)
  let s3 := register_event s2 (patch_event key) (Handler.patchState key)
  let s4 := if send_on_init then register_init s3 (Handler.sendState key) else s3
  let s5 := register_event s4 (action_event key) (Handler.actionHandler key)
  let s6 := register_event s5 (task_start_event key) (Handler.taskStart key)
  register_event s6 (task_cancel_event key) (Handler.taskCancel key)

/-- Embeds `Sync._deregister`: deregister the six events and, when
`send_on_init`, `self.session.init_handlers.remove(self._send_state)`
(whose ValueError is modelled by `none`). -/
def deregister (ses : SessionSt) (key : String) (send_on_init : Bool) :
    Option SessionSt :=
  let s1 := deregister_event ses (get_event key)
  let s2 := deregister_event s1 (set_event key)
  let s3 := deregister_event s2 (patch_event key)
  match
    (if send_on_init then removeFirst s3.init_handlers (Handler.sendState key)
     else some s3.init_handlers) with
  | none => none
  | some inits =>
    let s4 : SessionSt := { s3 with init_handlers := inits }
    let s5 := deregister_event s4 (action_event key)
    let s6 := deregister_event s5 (task_start_event key)
    some (deregister_event s6 (task_cancel_event key))

/-- Lifecycle state of one Sync within its Session. -/
structure CloseSt where
  session : SessionSt
  closed : Bool
deriving DecidableEq, Repr

/-- Modelled from the spec: `Sync.close` is absent from src/ (only its
tests, in tests/test_sync_memory_leaks.py, call it).  Spec section 4.10:
close() is idempotent and immediately deregisters all six event handlers
for this key, removing the init handler if registered.  We model it as
running the source `_deregister` once, guarded so that repeated calls are
no-ops; `none` models a raised exception. -/
def close (st : CloseSt) (key : String) (send_on_init : Bool) : Option CloseSt :=
  if st.closed then some st
  else
    match deregister st.session key send_on_init with
    | none => none
    | some ses2 => some { session := ses2, closed := true }

/-- Embeds the `_BIN_META` branch of `Session.handle_connection`
(session.py line 156): the dispatched data is the Python dict display
listing the binary entry first and then spreading the metadata, so a
metadata entry named "data" overrides the binary frame. -/
def reconstruct_bin_data (metadata : Dict Val) (bindata : List Nat) : Dict Val :=
  metadata.foldl (fun acc kv => upsert acc kv.1 kv.2) [("data", Val.bytes bindata)]

/-- The reconstruction as the CLAIM (and spec section 6) words it: spread
the metadata first, then override with the binary entry, so the binary
frame wins over any "data" key of the metadata.  Stated from the claim
text, for comparison with `reconstruct_bin_data`. -/
def claimed_bin_data (metadata : Dict Val) (bindata : List Nat) : Dict Val :=
  upsert (metadata.foldl (fun acc kv => upsert acc kv.1 kv.2) [])
    "data" (Val.bytes bindata)

/-- Result of one receive-loop step for a binary message. -/
inductive BinDispatch where
  | dispatched (event : String) (data : Dict Val)
  | noSubscriber (event : String)
deriving DecidableEq, Repr

/-- Embeds the receive loop on a `_BIN_META` message followed by a binary
frame: reconstruct the data and dispatch under the inner type if a handler
is registered, else warn. -/
def handle_bin_meta (ses : SessionSt) (innerType : String) (metadata : Dict Val)
    (bindata : List Nat) : BinDispatch :=
  let data := reconstruct_bin_data metadata bindata
  match alookup ses.event_handlers innerType with
  | some _ => BinDispatch.dispatched innerType data
  | none => BinDispatch.noSubscriber innerType

/-! ## JSON-Patch (jsonpatch library as used by sync.py) -/

/-- RFC 6902 operation at the top level of the snapshot object.  The
`jsonpatch` library addresses members by paths; for top-level members the
path is `/key`, which we carry structurally as the key. -/
inductive PatchOp where
  | add (key : String) (v : Val)
  | remove (key : String)
  | replace (key : String) (v : Val)
deriving DecidableEq, Repr

/-- Top-level key addressed by a patch operation
(`path.split("/")[1]` in `Sync._patch_state`). -/
def PatchOp.topKey : PatchOp → String
  | .add k _ => k
  | .remove k => k
  | .replace k _ => k

/-- Embeds `jsonpatch.make_patch(prev, new).patch` on the two snapshot
dictionaries, at the granularity of top-level members: a member present
only in `old` yields `remove`, a member with a different value yields
`replace`, a member present only in `new` yields `add`.  (The library
recurses into nested values producing finer paths; this neither changes
the set of touched top-level keys nor whether the patch is empty.) -/
def make_patch (old new : Dict Val) : List PatchOp :=
  (old.filterMap fun kv =>
    match alookup new kv.1 with
    | none => some (PatchOp.remove kv.1)
    | some v2 => if v2 = kv.2 then none else some (PatchOp.replace kv.1 v2)) ++
  (new.filterMap fun kv =>
    match alookup old kv.1 with
    | none => some (PatchOp.add kv.1 kv.2)
    | some _ => none)

/-- Embeds `jsonpatch.apply_patch` for one top-level operation: `add`
inserts or replaces the member, `replace` and `remove` require it to exist
(`none` models the JsonPatchConflict raised otherwise). -/
def apply_patch_op (snap : Dict Val) : PatchOp → Option (Dict Val)
  | .add k v => some (upsert snap k v)
  | .replace k v =>
    if (alookup snap k).isSome then some (upsert snap k v) else none
  | .remove k =>
    if (alookup snap k).isSome then some (eraseKey snap k) else none

/-- Embeds `jsonpatch.apply_patch`: apply the operations in sequence. -/
def apply_patch (snap : Dict Val) : List PatchOp → Option (Dict Val)
  | [] => some snap
  | op :: rest =>
    match apply_patch_op snap op with
    | some s2 => apply_patch s2 rest
    | none => none

/-! ## Sync engine (sync.py) -/

/-- A cached `TypeAdapter` for one attribute (`self.type_adapters`):
`dump` embeds `dump_python(mode="json", warnings=False)` and `validate`
embeds `validate_python`, whose ValidationError is modelled by `none`. -/
structure Adapter where
  dump : Val → Val
  validate : Val → Option Val

/-- The reflection-derived capabilities of the target class: attribute
read, attribute write (`none` models the AttributeError raised by
read-only members, in particular computed fields without a setter), and
the per-attribute adapters. -/
structure TargetClass (Obj : Type) where
  getAttr : Obj → String → Val
  setAttr : Obj → String → Val → Option Obj
  adapters : Dict Adapter

/-- The per-Sync state the claims are about, mirroring the fields set up
by `Sync.__init__`.  `connected` stands for `self.session.is_connected`,
`running_tasks` for the keys of the running-task dict in insertion order,
`last_sync` for `self._last_sync` (time modelled by integers). -/
structure SyncSt (Obj : Type) where
  key : String
  connected : Bool
  obj : Obj
  sync_attributes : Dict String
  key_to_attr : Dict String
  task_exposure : Option String
  running_tasks : List String
  state_snapshot : Dict Val
  last_sync : Option Int

/-- Embeds `Sync._snapshot` (plain-object branch: iterate
`sync_attributes`, serialize through the adapter when one exists,
`deepcopy` — the identity in value semantics — otherwise; the BaseModel
branch delegates to the external schema library).  When `task_exposure`
is set, the running-task list is written at that wire key last. -/
def Sync.snapshot {Obj : Type} (T : TargetClass Obj) (s : SyncSt Obj) : Dict Val :=
  let base := s.sync_attributes.foldl
    (fun acc ak =>
      upsert acc ak.2
        (match alookup T.adapters ak.1 with
         | some a => a.dump (T.getAttr s.obj ak.1)
         | none => T.getAttr s.obj ak.1))
    []
  match s.task_exposure with
  | some tk => upsert base tk (Val.strs s.running_tasks)
  | none => base

/-- Embeds the guard `if if_since_last and self._last_sync and
t - self._last_sync < if_since_last` with Python float truthiness
(zero is falsy). -/
def rate_limited (if_since_last : Option Int) (last : Option Int) (t : Int) : Bool :=
  match if_since_last, last with
  | some d, some l => (d != 0) && (l != 0) && decide (t - l < d)
  | _, _ => false

/-- Embeds `Sync.sync`: return unchanged when not connected or rate
limited; otherwise recompute the snapshot, diff against the previous one,
and emit `PATCH:key` (the second component) exactly when the patch is
non-empty, remembering the emit time only in that case. -/
def Sync.sync {Obj : Type} (T : TargetClass Obj) (s : SyncSt Obj) (t : Int)
    (if_since_last : Option Int) : SyncSt Obj × Option (String × List PatchOp) :=
  if s.connected = false then (s, none)
  else if rate_limited if_since_last s.last_sync t then (s, none)
  else
    let prev := s.state_snapshot
    let snap := Sync.snapshot T s
    let patch := make_patch prev snap
    if patch.length > 0 then
      ({ s with state_snapshot := snap, last_sync := some t },
       some (patch_event s.key, patch))
    else
      ({ s with state_snapshot := snap }, none)

/-- An exception escaping the SET/PATCH assignment loop. -/
inductive SetErr where
  | keyError (key : String)
  | validationError (key : String)
deriving DecidableEq, Repr

/-- Embeds one iteration of the `Sync._set_state` loop: skip the
task-exposure entry; `self.key_to_attr[key]` raises KeyError for unknown
wire keys; validate through the adapter when one exists (ValidationError
propagates); `setattr`, silently skipping the AttributeError raised by
read-only members (computed fields without a setter). -/
def set_entry {Obj : Type} (T : TargetClass Obj) (k2a : Dict String)
    (te : Option String) (obj : Obj) (k : String) (v : Val) : Except SetErr Obj :=
  if te = some k then Except.ok obj
  else
    match alookup k2a k with
    | none => Except.error (SetErr.keyError k)
    | some attr =>
      match alookup T.adapters attr with
      | some a =>
        match a.validate v with
        | none => Except.error (SetErr.validationError k)
        | some v2 =>
          match T.setAttr obj attr v2 with
          | some obj2 => Except.ok obj2
          | none => Except.ok obj
      | none =>
        match T.setAttr obj attr v with
        | some obj2 => Except.ok obj2
        | none => Except.ok obj

/-- The loop of `Sync._set_state` over the received entries in iteration
order; an exception aborts the loop, keeping the object state reached so
far (Python mutates the target in place). -/
def set_loop {Obj : Type} (T : TargetClass Obj) (k2a : Dict String)
    (te : Option String) : Obj → Dict Val → Obj × Option SetErr
  | obj, [] => (obj, none)
  | obj, kv :: rest =>
    match set_entry T k2a te obj kv.1 kv.2 with
    | Except.ok obj2 => set_loop T k2a te obj2 rest
    | Except.error e => (obj, some e)

/-- Embeds `Sync._set_state`: run the loop; only when no exception escapes
is `self.state_snapshot = new_state` reached. -/
def Sync.set_state {Obj : Type} (T : TargetClass Obj) (s : SyncSt Obj)
    (new_state : Dict Val) : SyncSt Obj × Option SetErr :=
  match set_loop T s.key_to_attr s.task_exposure s.obj new_state with
  | (obj2, none) => ({ s with obj := obj2, state_snapshot := new_state }, none)
  | (obj2, some e) => ({ s with obj := obj2 }, some e)

/-- The effect of one exception-free iteration on the target object, used
to state the sequential (last-write-wins) result of the loop. -/
def assign_step {Obj : Type} (T : TargetClass Obj) (k2a : Dict String)
    (te : Option String) (obj : Obj) (kv : String × Val) : Obj :=
  match set_entry T k2a te obj kv.1 kv.2 with
  | Except.ok obj2 => obj2
  | Except.error _ => obj

/-- Decides that one received entry cannot raise: it is the task-exposure
entry, or its wire key is bound in `key_to_attr` and its value passes the
validator when the attribute has one.  (Whether the iteration raises does
not depend on the current object state: `setattr` failures are
swallowed.) -/
def entry_clean {Obj : Type} (T : TargetClass Obj) (k2a : Dict String)
    (te : Option String) (kv : String × Val) : Bool :=
  (te = some kv.1) ||
    match alookup k2a kv.1 with
    | none => false
    | some attr =>
      match alookup T.adapters attr with
      | some a => (a.validate kv.2).isSome
      | none => true

/-- Embeds the collection of `modified_keys` in `Sync._patch_state`: the
top-level keys of the operations that are bound in `key_to_attr`.  The
source collects them in a Python set, whose iteration order is
unspecified; we list first occurrences (no claim in this development
depends on the iteration order of this set). -/
def modified_keys (k2a : Dict String) (patch : List PatchOp) : List String :=
  (patch.map PatchOp.topKey).foldl
    (fun acc k =>
      if (alookup k2a k).isSome && !(acc.contains k) then acc ++ [k] else acc)
    []

/-- The assignment loop of `Sync._patch_state` over the modified keys: the
value is read back from the freshly patched snapshot
(`self.state_snapshot[key]`, whose KeyError is modelled), then the same
validate-and-assign dance as in SET. -/
def patch_assign_loop {Obj : Type} (T : TargetClass Obj) (k2a : Dict String)
    (te : Option String) (snap2 : Dict Val) :
    Obj → List String → Obj × Option SetErr
  | obj, [] => (obj, none)
  | obj, k :: rest =>
    if te = some k then patch_assign_loop T k2a te snap2 obj rest
    else
      match alookup k2a k with
      | none => (obj, some (SetErr.keyError k))
      | some _ =>
        match alookup snap2 k with
        | none => (obj, some (SetErr.keyError k))
        | some v =>
          match set_entry T k2a te obj k v with
          | Except.ok obj2 => patch_assign_loop T k2a te snap2 obj2 rest
          | Except.error e => (obj, some e)

/-- An exception escaping `Sync._patch_state`. -/
inductive PatchErr where
  | conflict
  | assignErr (e : SetErr)
deriving DecidableEq, Repr

/-- Embeds `Sync._patch_state`: apply the patch to the snapshot first
(replacing `self.state_snapshot`), collect the modified keys bound in
`key_to_attr`, and validate-and-assign each from the patched snapshot. -/
def Sync.patch_state {Obj : Type} (T : TargetClass Obj) (s : SyncSt Obj)
    (patch : List PatchOp) : SyncSt Obj × Option PatchErr :=
  match apply_patch s.state_snapshot patch with
  | none => (s, some PatchErr.conflict)
  | some snap2 =>
    match
      patch_assign_loop T s.key_to_attr s.task_exposure snap2 s.obj
        (modified_keys s.key_to_attr patch) with
    | (obj2, none) => ({ s with state_snapshot := snap2, obj := obj2 }, none)
    | (obj2, some e) =>
      ({ s with state_snapshot := snap2, obj := obj2 }, some (PatchErr.assignErr e))

/-! ## Tasks (sync.py: `Sync._create_task_handlers`) -/

/-- Observable side effects of the task machinery.  `warned` stands for
`warnings.warn` / `logger.warning` (spec section 1 places logging
configuration out of scope, so a missing logger is not distinguished);
`resynced` for the `await self.sync()` republishing the running-task list;
`cancelHandlerCalled` for the invocation of the registered task-cancel
handler. -/
inductive TaskEffect where
  | warned (name : String)
  | resynced
  | cancelHandlerCalled (name : String)
deriving DecidableEq, Repr

/-- The task-related state of a Sync: the keys of `running_tasks` in
insertion order and whether `task_exposure` is set. -/
structure TaskSt where
  running_tasks : List String
  exposure : Bool
deriving DecidableEq, Repr

/-- Embeds `_create_task` (the TASK_START handler) after popping the task
name: unknown names warn (`No factory for task`); names already running
warn and return; otherwise the spawned handle is stored under the name and
the exposed list re-synced when task exposure is on. -/
def start_task (factories : List String) (st : TaskSt) (name : String) :
    TaskSt × List TaskEffect :=
  if factories.contains name then
    if st.running_tasks.contains name then (st, [TaskEffect.warned name])
    else
      ({ st with running_tasks := st.running_tasks ++ [name] },
       if st.exposure then [TaskEffect.resynced] else [])
  else (st, [TaskEffect.warned name])

/-- How the awaited task body ends. -/
inductive Outcome where
  | completed
  | cancelled
  | errored
deriving DecidableEq, Repr

/-- Embeds `_run_and_pop`, the wrapper awaiting the task body: on
cancellation the registered task-cancel handler (if any) runs before the
cancellation is re-raised; the `finally` block pops the entry and
re-syncs the exposed list in every case. -/
def run_and_pop (cancels : List String) (st : TaskSt) (name : String)
    (outcome : Outcome) : TaskSt × List TaskEffect :=
  let cancelFx := match outcome with
    | Outcome.cancelled =>
      if cancels.contains name then [TaskEffect.cancelHandlerCalled name] else []
    | _ => []
  ({ st with running_tasks := st.running_tasks.filter (fun n => n ≠ name) },
   cancelFx ++ (if st.exposure then [TaskEffect.resynced] else []))

/-! ## Actions (sync.py: `Sync._create_action_handler`,
`Sync.build_kwargs_model`) -/

/-- One field of the cached kwargs-validation model: the parameter name,
its annotation-derived coercion (`none` models a ValidationError), and
its default when the handler signature has one. -/
structure ParamSpec where
  name : String
  validate : Val → Option Val
  default : Option Val

/-- One parameter of the handler signature, as `inspect.signature`
reports it (`isVar` marks VAR_POSITIONAL / VAR_KEYWORD). -/
structure RawParam where
  name : String
  isVar : Bool
  default : Option Val
  validate : Val → Option Val

/-- Embeds the field-collection loop of `Sync.build_kwargs_model`: skip
the receiver (index 0 named "self") and variadic parameters; annotation
and default are drawn from the signature. -/
def build_kwargs_fields (params : List RawParam) : List ParamSpec :=
  params.enum.filterMap fun ip =>
    if ip.1 == 0 && ip.2.name == "self" then none
    else if ip.2.isVar then none
    else some { name := ip.2.name, validate := ip.2.validate, default := ip.2.default }

/-- The validation alias attached to one field: the configured alias
generator applied to the parameter name, or the name itself when no
generator is configured. -/
def aliasOf (aliasGen : Option (String → String)) (f : ParamSpec) : String :=
  match aliasGen with
  | some g => g f.name
  | none => f.name

/-- How pydantic populates one model field given
`validate_by_alias=True` and `validate_by_name=True` (the ConfigDict of
`build_kwargs_model`): the input is accepted under the generated alias or
under the parameter name itself. -/
def lookup_param (aliasGen : Option (String → String)) (input : Dict Val)
    (f : ParamSpec) : Option Val :=
  match alookup input (aliasOf aliasGen f) with
  | some v => some v
  | none => alookup input f.name

/-- Validation of the remaining action fields through the cached kwargs
model, producing the native values handed to the handler
(`{name: getattr(validated, name) for name in model_fields}`): each field
is populated under either spelling, coerced by its validator, or filled
from its default; a missing required field or a coercion failure is a
ValidationError (`none`). -/
def validate_kwargs (aliasGen : Option (String → String)) :
    List ParamSpec → Dict Val → Option (Dict Val)
  | [], _ => some []
  | f :: rest, input =>
    match lookup_param aliasGen input f with
    | some v =>
      match f.validate v with
      | some v2 => (validate_kwargs aliasGen rest input).map (fun kw => (f.name, v2) :: kw)
      | none => none
    | none =>
      match f.default with
      | some d => (validate_kwargs aliasGen rest input).map (fun kw => (f.name, d) :: kw)
      | none => none

/-- Result of dispatching one inbound ACTION event. -/
inductive ActionResult where
  | warned (t : String)
  | invoked (t : String) (kwargs : Dict Val)
  | validationFailed (t : String)
  | typeMissing
deriving DecidableEq, Repr

/-- Embeds `_handle_action`: pop `type` (a string on the wire; a missing
entry raises KeyError); warn when no handler is registered under it;
otherwise validate the remaining fields through the cached validator and
invoke the handler with the validated native values (when no validator is
cached the remaining fields are passed through as they are). -/
def handle_action (aliasGen : Option (String → String)) (handlers : List String)
    (validators : Dict (List ParamSpec)) (action : Dict Val) : ActionResult :=
  match alookup action "type" with
  | some (Val.str t) =>
    let rest := eraseKey action "type"
    if handlers.contains t then
      match alookup validators t with
      | some fields =>
        match validate_kwargs aliasGen fields rest with
        | some kw => ActionResult.invoked t kw
        | none => ActionResult.validationFailed t
      | none => ActionResult.invoked t rest
    else ActionResult.warned t
  | _ => ActionResult.typeMissing

/-! ## Decorator markers and construction (decorators.py, Sync.__init__) -/

/-- A class member as the reflection scan sees it: the `remote_action` /
`remote_task` / `remote_task_cancel` attributes attached by the called
decorators and the `forgot_to_call` marker carried by a decorator that was
used as a bare reference. -/
structure Member where
  name : String
  isProp : Bool
  isCallable : Bool
  remote_action : Option String
  remote_task : Option String
  remote_task_cancel : Option String
  forgot_to_call : Bool

/-- Embeds `find_remote_actions`: skip properties, collect callable
members carrying the `remote_action` key (the member name stands for the
discovered function). -/
def find_remote_actions (members : List Member) : Dict String :=
  members.foldl
    (fun acc m =>
      if m.isProp then acc
      else if m.isCallable then
        match m.remote_action with
        | some k => upsert acc k m.name
        | none => acc
      else acc)
    []

/-- Embeds `find_remote_tasks`. -/
def find_remote_tasks (members : List Member) : Dict String :=
  members.foldl
    (fun acc m =>
      if m.isProp then acc
      else if m.isCallable then
        match m.remote_task with
        | some k => upsert acc k m.name
        | none => acc
      else acc)
    []

/-- Embeds `find_remote_task_cancellers`. -/
def find_remote_task_cancellers (members : List Member) : Dict String :=
  members.foldl
    (fun acc m =>
      if m.isProp then acc
      else if m.isCallable then
        match m.remote_task_cancel with
        | some k => upsert acc k m.name
        | none => acc
      else acc)
    []

/-- Modelled from the spec: the construction-time misuse check of
`Sync.__init__` is absent from src/ — the decorators in
src/ws_sync/decorators.py attach the `forgot_to_call` marker (lines 266,
319, 364) but nothing under src/ consumes it.  Spec section 4.4: "if the
user-declared decorator was accidentally used as a bare reference (the
forgot-to-call marker is present on a member), construction fails
loudly"; section 7: assertion failure at construction time.  True when no
member carries the marker. -/
def members_all_called (members : List Member) : Bool :=
  members.all (fun m => !m.forgot_to_call)

/-- Modelled from the spec (together with the source discovery scans):
construction asserts that no member carries the forgot-to-call marker and
then discovers the declared actions, tasks and task-cancellers; the
assertion failure is modelled by `Except.error`. -/
def construct_discovery (members : List Member) :
    Except String (Dict String × Dict String × Dict String) :=
  if members_all_called members then
    Except.ok
      (find_remote_actions members, find_remote_tasks members,
       find_remote_task_cancellers members)
  else Except.error "remote decorator used as a bare reference"

/-! ## Concrete instances (used by the witnesses) -/

/-- A small concrete target class over an attribute store: `length` is a
read-only member (its `setattr` raises), `count` has a cached adapter
accepting only numbers. -/
def demoTarget : TargetClass (Dict Val) where
  getAttr o a := (alookup o a).getD Val.null
  setAttr o a v := if a = "length" then none else some (upsert o a v)
  adapters :=
    [("count",
      { dump := fun v => v,
        validate := fun v =>
          match v with
          | Val.num n => some (Val.num n)
          | _ => none })]

/-- A connected Sync over `demoTarget` whose stored snapshot is stale (the
object mutated since the last emission). -/
def demoSync : SyncSt (Dict Val) where
  key := "DEMO"
  connected := true
  obj := [("count", Val.num 2), ("name", Val.str "a")]
  sync_attributes := [("count", "count"), ("name", "name")]
  key_to_attr := [("count", "count"), ("name", "name")]
  task_exposure := none
  running_tasks := []
  state_snapshot := [("count", Val.num 1), ("name", Val.str "a")]
  last_sync := none

/-- The same Sync while its session is disconnected. -/
def demoSyncOffline : SyncSt (Dict Val) :=
  { demoSync with connected := false }

/-- A Sync with task exposure on and a read-only `length` attribute
observed, for the SET/PATCH witnesses. -/
def demoSetSync : SyncSt (Dict Val) where
  key := "DEMO"
  connected := true
  obj := [("count", Val.num 2), ("name", Val.str "a"), ("length", Val.num 1)]
  sync_attributes := [("count", "count"), ("name", "name"), ("length", "length")]
  key_to_attr := [("count", "count"), ("name", "name"), ("length", "length")]
  task_exposure := some "runningTasks"
  running_tasks := []
  state_snapshot := [("count", Val.num 2), ("name", Val.str "a"), ("length", Val.num 1)]
  last_sync := none

/-- A fresh Session. -/
def demoSession0 : SessionSt where
  event_handlers := []
  init_handlers := []

/-- A concrete parameter alias generator. -/
def demoAliasGen : String → String := fun n => "x" ++ n

/-- A concrete action parameter accepting only strings, with no
default. -/
def demoParam : ParamSpec where
  name := "new_name"
  validate := fun v =>
    match v with
    | Val.str s => some (Val.str s)
    | _ => none
  default := none

/-- The cached validator table of one declared action. -/
def demoValidators : Dict (List ParamSpec) := [("UPDATE", [demoParam])]

/-- An inbound ACTION payload carrying the parameter under its alias. -/
def demoAction : Dict Val :=
  [("type", Val.str "UPDATE"), ("xnew_name", Val.str "Jo")]

/-! ## Helper lemmas -/

theorem alookup_eq_some_of_mem {α : Type} {d : Dict α} {k : String} {v : α}
    (hnd : (d.map Prod.fst).Nodup) (hm : (k, v) ∈ d) : alookup d k = some v := by
  induction d with
  | nil => cases hm
  | cons hd tl ih =>
    obtain ⟨k0, v0⟩ := hd
    simp only [List.map_cons, List.nodup_cons] at hnd
    rcases List.mem_cons.mp hm with h | h
    · cases h
      simp [alookup]
    · have hk : k0 ≠ k := by
        intro he
        exact hnd.1 (he ▸ (List.mem_map.mpr ⟨(k, v), h, rfl⟩))
      simp [alookup, hk, ih hnd.2 h]

theorem mem_of_alookup_eq_some {α : Type} {d : Dict α} {k : String} {v : α}
    (h : alookup d k = some v) : (k, v) ∈ d := by
  induction d with
  | nil => simp [alookup] at h
  | cons hd tl ih =>
    obtain ⟨k0, v0⟩ := hd
    by_cases hk : k0 = k
    · subst hk
      simp [alookup] at h
      subst h
      exact List.mem_cons_self _ _
    · simp [alookup, hk] at h
      exact List.mem_cons_of_mem _ (ih h)

theorem alookup_upsert_self {α : Type} (d : Dict α) (k : String) (v : α) :
    alookup (upsert d k v) k = some v := by
  induction d with
  | nil => simp [upsert, alookup]
  | cons hd tl ih =>
    obtain ⟨k0, v0⟩ := hd
    by_cases hk : k0 = k
    · simp [upsert, hk, alookup]
    · simp [upsert, hk, alookup, ih]

theorem alookup_upsert_ne {α : Type} (d : Dict α) (k k2 : String) (v : α)
    (h : k ≠ k2) : alookup (upsert d k v) k2 = alookup d k2 := by
  induction d with
  | nil => simp [upsert, alookup, h]
  | cons hd tl ih =>
    obtain ⟨k0, v0⟩ := hd
    by_cases hk : k0 = k
    · subst hk
      simp [upsert, alookup, h]
    · simp [upsert, hk, alookup, ih]

/-- The generated patch is empty exactly when the two snapshots agree as
finite maps (no member added, removed, or changed). -/
theorem make_patch_eq_nil_iff (old new : Dict Val)
    (hold : (old.map Prod.fst).Nodup) (hnew : (new.map Prod.fst).Nodup) :
    make_patch old new = [] ↔ ∀ k, alookup old k = alookup new k := by
  unfold make_patch
  rw [List.append_eq_nil, List.filterMap_eq_nil_iff, List.filterMap_eq_nil_iff]
  constructor
  · rintro ⟨h1, h2⟩ k
    cases hlo : alookup old k with
    | none =>
      cases hln : alookup new k with
      | none => rfl
      | some v =>
        have hmem := mem_of_alookup_eq_some hln
        have := h2 (k, v) hmem
        simp only [hlo] at this
        cases this
    | some v =>
      have hmem := mem_of_alookup_eq_some hlo
      have := h1 (k, v) hmem
      cases hln : alookup new k with
      | none => simp only [hln] at this; cases this
      | some v2 =>
        simp only [hln] at this
        by_cases hv : v2 = v
        · rw [hv]
        · simp [hv] at this
  · intro h
    constructor
    · rintro ⟨k, v⟩ hmem
      have hlo := alookup_eq_some_of_mem hold hmem
      have hln : alookup new k = some v := by rw [← h k]; exact hlo
      simp [hln]
    · rintro ⟨k, v⟩ hmem
      have hln := alookup_eq_some_of_mem hnew hmem
      have hlo : alookup old k = some v := by rw [h k]; exact hln
      simp [hlo]

theorem alookup_eq_none_iff {α : Type} (d : Dict α) (k : String) :
    alookup d k = none ↔ k ∉ d.map Prod.fst := by
  induction d with
  | nil => simp [alookup]
  | cons hd tl ih =>
    obtain ⟨k0, v0⟩ := hd
    by_cases hk : k0 = k
    · subst hk
      simp [alookup]
    · simp [alookup, hk, ih, Ne.symm hk]

theorem alookup_foldl_upsert {α : Type} (l : Dict α) (init : Dict α) (k : String)
    (hnd : (l.map Prod.fst).Nodup) :
    alookup (l.foldl (fun acc kv => upsert acc kv.1 kv.2) init) k =
      match alookup l k with
      | some v => some v
      | none => alookup init k := by
  induction l generalizing init with
  | nil => simp [alookup]
  | cons hd tl ih =>
    obtain ⟨k0, v0⟩ := hd
    simp only [List.map_cons, List.nodup_cons] at hnd
    rw [List.foldl_cons]
    by_cases hk : k0 = k
    · subst hk
      have htl : alookup tl k0 = none :=
        (alookup_eq_none_iff tl k0).mpr hnd.1
      simp [alookup, htl, ih _ hnd.2, alookup_upsert_self]
    · simp [alookup, hk, ih _ hnd.2, alookup_upsert_ne _ _ _ _ hk]

/-- C5: within keyScope("a") then keyScope("b"), a Sync with base key K
gets final key a/b/K; entering a scope with None or the empty string
pushes nothing; with an empty stack the key is unchanged. -/
theorem c5_key_prefixing (a b K : String) (ha : a ≠ "") (hb : b ≠ "") :
    scopedKey (pushScope (some b) (pushScope (some a) [])) K =
      a ++ "/" ++ b ++ "/" ++ K ∧
    (∀ stack, pushScope none stack = stack ∧ pushScope (some "") stack = stack) ∧
    scopedKey [] K = K := by
  refine ⟨?_, ?_, ?_⟩
  · have hstack : pushScope (some b) (pushScope (some a) []) = [a, b] := by
      simp [pushScope, ha, hb]
    rw [hstack]
    have hne : a ++ "/" ++ b ≠ "" := by
      intro h
      have hlen := congrArg String.length h
      have hs : ("/" : String).length = 1 := rfl
      have he : ("" : String).length = 0 := rfl
      simp only [String.length_append, hs, he] at hlen
      omega
    have h1 : currentScopeJoin [a, b] = some (a ++ "/" ++ b) := rfl
    simp only [scopedKey, h1]
    rw [if_neg hne]
  · intro stack
    exact ⟨rfl, by simp [pushScope]⟩
  · rfl

theorem c5_key_prefixing_witness :
    ("a" : String) ≠ "" ∧ ("b" : String) ≠ "" ∧
      scopedKey (pushScope (some "b") (pushScope (some "a") [])) "K" =
        "a" ++ "/" ++ "b" ++ "/" ++ "K" :=
  ⟨by decide, by decide,
    (c5_key_prefixing "a" "b" "K" (by decide) (by decide)).1⟩

/-- C9: constructing a Sync over a target whose class has a member
carrying the forgot-to-call marker (a remote decorator used as a bare
reference) fails loudly at construction time rather than silently
ignoring the member. -/
theorem c9_forgot_to_call (members : List Member) (m : Member)
    (hm : m ∈ members) (hf : m.forgot_to_call = true) :
    construct_discovery members =
      Except.error "remote decorator used as a bare reference" := by
  have hall : members_all_called members = false := by
    unfold members_all_called
    by_contra hcon
    have htrue : members.all (fun m => !m.forgot_to_call) = true := by
      cases hx : members.all (fun m => !m.forgot_to_call) with
      | false => exact absurd hx hcon
      | true => rfl
    have := List.all_eq_true.mp htrue m hm
    simp [hf] at this
  unfold construct_discovery
  simp [hall]

theorem c9_forgot_to_call_witness :
    construct_discovery
        [{ name := "bare", isProp := false, isCallable := true,
           remote_action := none, remote_task := none,
           remote_task_cancel := none, forgot_to_call := true }] =
      Except.error "remote decorator used as a bare reference" :=
  c9_forgot_to_call _ _ (List.mem_singleton.mpr rfl) rfl

/-- C8 counterexample: when the metadata itself carries a "data" entry,
the receive loop keeps the metadata entry, not the binary frame: the
reconstruction is the dict display listing the binary entry first and
spreading the metadata after it, so the metadata overrides — the opposite
of the spread-then-override shape the claim states. -/
theorem c8_counterexample :
    alookup (reconstruct_bin_data [("data", Val.str "x")] [1]) "data" =
      some (Val.str "x") ∧
    alookup (claimed_bin_data [("data", Val.str "x")] [1]) "data" =
      some (Val.bytes [1]) ∧
    reconstruct_bin_data [("data", Val.str "x")] [1] ≠
      claimed_bin_data [("data", Val.str "x")] [1] := by
  decide

/-- C8 amended: the receive loop reconstructs the dispatched data as the
merge of the metadata with a binary entry under "data" in which the
METADATA takes precedence over the binary entry; when the metadata has no
"data" key this agrees (as a map) with the spread-then-override shape of
the claim, the binary frame is found under "data", every metadata entry
is preserved, and the result is dispatched to the handler registered
under the inner type. -/
theorem c8_bin_meta_amended (ses : SessionSt) (innerType : String)
    (metadata : Dict Val) (bindata : List Nat) (h : Handler)
    (hnd : (metadata.map Prod.fst).Nodup)
    (hdata : alookup metadata "data" = none)
    (hreg : alookup ses.event_handlers innerType = some h) :
    handle_bin_meta ses innerType metadata bindata =
      BinDispatch.dispatched innerType (reconstruct_bin_data metadata bindata) ∧
    alookup (reconstruct_bin_data metadata bindata) "data" =
      some (Val.bytes bindata) ∧
    (∀ k v, alookup metadata k = some v →
      alookup (reconstruct_bin_data metadata bindata) k = some v) ∧
    (∀ k, alookup (reconstruct_bin_data metadata bindata) k =
      alookup (claimed_bin_data metadata bindata) k) := by
  refine ⟨?_, ?_, ?_, ?_⟩
  · simp [handle_bin_meta, hreg]
  · unfold reconstruct_bin_data
    rw [alookup_foldl_upsert _ _ _ hnd]
    simp [hdata, alookup]
  · intro k v hk
    unfold reconstruct_bin_data
    rw [alookup_foldl_upsert _ _ _ hnd]
    simp [hk]
  · intro k
    unfold reconstruct_bin_data claimed_bin_data
    by_cases hk : k = "data"
    · subst hk
      rw [alookup_foldl_upsert _ _ _ hnd]
      simp [hdata, alookup, alookup_upsert_self]
    · rw [alookup_foldl_upsert _ _ _ hnd,
        alookup_upsert_ne _ _ _ _ (fun he => hk he.symm),
        alookup_foldl_upsert _ _ _ hnd]
      cases hmk : alookup metadata k <;> simp [alookup, Ne.symm hk]

theorem c8_bin_meta_amended_witness :
    ((([("meta", Val.str "m")] : Dict Val).map Prod.fst).Nodup ∧
      alookup ([("meta", Val.str "m")] : Dict Val) "data" = none ∧
      alookup (register_event demoSession0 "EV" (Handler.actionHandler "K")).event_handlers
        "EV" = some (Handler.actionHandler "K")) ∧
    alookup (reconstruct_bin_data [("meta", Val.str "m")] [7, 8]) "data" =
      some (Val.bytes [7, 8]) :=
  ⟨⟨by decide, by decide, by decide⟩,
    (c8_bin_meta_amended
      (register_event demoSession0 "EV" (Handler.actionHandler "K")) "EV"
      [("meta", Val.str "m")] [7, 8] (Handler.actionHandler "K")
      (by decide) (by decide) (by decide)).2.1⟩

theorem map_fst_upsert {α : Type} (d : Dict α) (k : String) (v : α) :
    (upsert d k v).map Prod.fst =
      if k ∈ d.map Prod.fst then d.map Prod.fst else d.map Prod.fst ++ [k] := by
  induction d with
  | nil => simp [upsert]
  | cons hd tl ih =>
    obtain ⟨k0, v0⟩ := hd
    by_cases hk : k0 = k
    · subst hk
      simp [upsert]
    · simp only [upsert, if_neg hk, List.map_cons, ih, List.mem_cons]
      by_cases hm : k ∈ tl.map Prod.fst
      · simp [hm, Ne.symm hk]
      · simp [hm, Ne.symm hk]

theorem nodup_map_fst_upsert {α : Type} (d : Dict α) (k : String) (v : α)
    (h : (d.map Prod.fst).Nodup) : ((upsert d k v).map Prod.fst).Nodup := by
  rw [map_fst_upsert]
  by_cases hm : k ∈ d.map Prod.fst
  · simpa [hm] using h
  · rw [if_neg hm]
    rw [List.nodup_append]
    exact ⟨h, List.nodup_singleton k, by
      intro a ha hb
      rw [List.mem_singleton] at hb
      exact hm (hb ▸ ha)⟩

theorem nodup_map_fst_foldl {α β : Type} (F : Dict α → β → Dict α)
    (hF : ∀ acc x, (acc.map Prod.fst).Nodup → ((F acc x).map Prod.fst).Nodup)
    (l : List β) (init : Dict α) (h : (init.map Prod.fst).Nodup) :
    ((l.foldl F init).map Prod.fst).Nodup := by
  induction l generalizing init with
  | nil => exact h
  | cons hd tl ih => exact ih _ (hF _ _ h)

/-- The snapshot is built by dict assignments, so its wire keys are
unique. -/
theorem snapshot_keys_nodup {Obj : Type} (T : TargetClass Obj) (s : SyncSt Obj) :
    ((Sync.snapshot T s).map Prod.fst).Nodup := by
  unfold Sync.snapshot
  have hbase := nodup_map_fst_foldl
    (fun acc ak => upsert acc ak.2
      (match alookup T.adapters ak.1 with
       | some a => a.dump (T.getAttr s.obj ak.1)
       | none => T.getAttr s.obj ak.1))
    (fun acc x h => nodup_map_fst_upsert _ _ _ h)
    s.sync_attributes [] (by simp)
  cases hte : s.task_exposure with
  | none => simpa [hte] using hbase
  | some tk =>
    simp only [hte]
    exact nodup_map_fst_upsert _ _ _ hbase

/-- C1: sync() returns without emitting when the session is not
connected; when connected and not rate limited it recomputes the
snapshot, remembers it, and emits PATCH:key with the JSON-Patch from the
prior snapshot to the new one exactly when that patch is non-empty — that
is, exactly when some observed wire key changed — remembering the emit
time only in that case. -/
theorem c1_sync_contract {Obj : Type} (T : TargetClass Obj) (s : SyncSt Obj)
    (t : Int) (d : Option Int)
    (hold : (s.state_snapshot.map Prod.fst).Nodup) :
    (s.connected = false → Sync.sync T s t d = (s, none)) ∧
    (s.connected = true → rate_limited d s.last_sync t = false →
      (Sync.sync T s t d).1.state_snapshot = Sync.snapshot T s ∧
      (Sync.sync T s t d).2 =
        (if make_patch s.state_snapshot (Sync.snapshot T s) = [] then none
         else some (patch_event s.key,
           make_patch s.state_snapshot (Sync.snapshot T s))) ∧
      ((Sync.sync T s t d).2 ≠ none ↔
        ∃ k, alookup s.state_snapshot k ≠ alookup (Sync.snapshot T s) k) ∧
      (Sync.sync T s t d).1.last_sync =
        (if make_patch s.state_snapshot (Sync.snapshot T s) = [] then s.last_sync
         else some t)) := by
  constructor
  · intro h
    simp [Sync.sync, h]
  · intro hc hr
    have hnew := snapshot_keys_nodup T s
    by_cases hp : make_patch s.state_snapshot (Sync.snapshot T s) = []
    · have hall := (make_patch_eq_nil_iff _ _ hold hnew).mp hp
      have hlen : ¬ (make_patch s.state_snapshot (Sync.snapshot T s)).length > 0 := by
        rw [hp]
        simp
      refine ⟨?_, ?_, ?_, ?_⟩ <;>
        simp [Sync.sync, hc, hr, hlen, hp, hall]
    · have hlen : (make_patch s.state_snapshot (Sync.snapshot T s)).length > 0 :=
        List.length_pos.mpr hp
      refine ⟨?_, ?_, ?_, ?_⟩
      · simp [Sync.sync, hc, hr, hlen]
      · simp [Sync.sync, hc, hr, hlen, hp]
      · simp only [Sync.sync, hc, hr]
        simp only [Bool.false_eq_true, if_false, if_pos hlen]
        constructor
        · intro _
          by_contra hno
          push_neg at hno
          exact hp ((make_patch_eq_nil_iff _ _ hold hnew).mpr hno)
        · intro _
          simp
      · simp [Sync.sync, hc, hr, hlen, hp]

theorem c1_sync_contract_witness :
    ((demoSync.state_snapshot.map Prod.fst).Nodup ∧ demoSync.connected = true ∧
      rate_limited none demoSync.last_sync 100 = false) ∧
    ((Sync.sync demoTarget demoSync 100 none).2 ≠ none ↔
      ∃ k, alookup demoSync.state_snapshot k ≠
        alookup (Sync.snapshot demoTarget demoSync) k) :=
  ⟨⟨by decide, rfl, rfl⟩,
    ((c1_sync_contract demoTarget demoSync 100 none (by decide)).2 rfl rfl).2.2.1⟩

/-- C6 counterexample: a sync() call on a disconnected session returns
immediately, so the stored snapshot can remain stale — here the object
holds count = 2 while the snapshot still says count = 1 after sync()
returns, refuting "after every sync() call returns, the snapshot equals
the freshly serialized observed state". -/
theorem c6_counterexample :
    (Sync.sync demoTarget demoSyncOffline 100 none).1.state_snapshot ≠
      Sync.snapshot demoTarget ((Sync.sync demoTarget demoSyncOffline 100 none).1) := by
  decide

/-- C6 amended: after a sync() call that passes the connectivity and
rate-limit guards, the stored snapshot equals the freshly serialized
observed state of the target (the early-return paths — not connected, or
rate limited — leave the snapshot untouched). -/
theorem c6_snapshot_invariant {Obj : Type} (T : TargetClass Obj) (s : SyncSt Obj)
    (t : Int) (d : Option Int)
    (hc : s.connected = true) (hr : rate_limited d s.last_sync t = false) :
    (Sync.sync T s t d).1.state_snapshot =
      Sync.snapshot T ((Sync.sync T s t d).1) := by
  unfold Sync.sync
  rw [hc, hr]
  rw [if_neg (fun h => Bool.noConfusion h), if_neg (fun h => Bool.noConfusion h)]
  dsimp only
  split
  · rfl
  · rfl

theorem c6_snapshot_invariant_witness :
    (demoSync.connected = true ∧ rate_limited none demoSync.last_sync 100 = false) ∧
    (Sync.sync demoTarget demoSync 100 none).1.state_snapshot =
      Sync.snapshot demoTarget ((Sync.sync demoTarget demoSync 100 none).1) :=
  ⟨⟨rfl, rfl⟩, c6_snapshot_invariant demoTarget demoSync 100 none rfl rfl⟩

theorem set_entry_isOk_of_clean {Obj : Type} (T : TargetClass Obj) (k2a : Dict String)
    (te : Option String) (obj : Obj) (kv : String × Val)
    (h : entry_clean T k2a te kv = true) :
    set_entry T k2a te obj kv.1 kv.2 = Except.ok (assign_step T k2a te obj kv) := by
  unfold entry_clean at h
  unfold assign_step
  by_cases hte : te = some kv.1
  · simp [set_entry, hte]
  · rw [Bool.or_eq_true, decide_eq_true_iff] at h
    rcases h with h | h
    · exact absurd h hte
    · cases halo : alookup k2a kv.1 with
      | none =>
        rw [halo] at h
        dsimp only at h
        cases h
      | some attr =>
        rw [halo] at h
        dsimp only at h
        cases had : alookup T.adapters attr with
        | none =>
          cases hset : T.setAttr obj attr kv.2 <;>
            simp [set_entry, hte, halo, had, hset]
        | some a =>
          rw [had] at h
          dsimp only at h
          obtain ⟨v2, hv2⟩ := Option.isSome_iff_exists.mp h
          cases hset : T.setAttr obj attr v2 <;>
            simp [set_entry, hte, halo, had, hv2, hset]

theorem set_loop_eq_foldl {Obj : Type} (T : TargetClass Obj) (k2a : Dict String)
    (te : Option String) (l : Dict Val) (obj : Obj)
    (h : l.all (entry_clean T k2a te) = true) :
    set_loop T k2a te obj l = (l.foldl (assign_step T k2a te) obj, none) := by
  induction l generalizing obj with
  | nil => simp [set_loop]
  | cons hd tl ih =>
    rw [List.all_cons, Bool.and_eq_true] at h
    rw [List.foldl_cons]
    have hok := set_entry_isOk_of_clean T k2a te obj hd h.1
    simp [set_loop, hok, ih _ h.2]

theorem set_loop_append_clean {Obj : Type} (T : TargetClass Obj) (k2a : Dict String)
    (te : Option String) (pre l2 : Dict Val) (obj : Obj)
    (h : pre.all (entry_clean T k2a te) = true) :
    set_loop T k2a te obj (pre ++ l2) =
      set_loop T k2a te (pre.foldl (assign_step T k2a te) obj) l2 := by
  induction pre generalizing obj with
  | nil => simp
  | cons hd tl ih =>
    rw [List.all_cons, Bool.and_eq_true] at h
    have hok := set_entry_isOk_of_clean T k2a te obj hd h.1
    rw [List.cons_append, List.foldl_cons]
    simp only [set_loop, hok]
    exact ih _ h.2

/-- C2: the SET handler processes the received wire keys in the map's
iteration order (skipping the task-exposure entry), validating and
assigning each — read-only targets of `setattr` (computed fields without a
setter) are skipped silently inside `assign_step` — and, once all keys are
processed, replaces the stored snapshot with exactly the received state
object; the resulting target state is the sequential left fold of the
per-entry assignment, i.e. last write wins per attribute. -/
theorem c2_set_state {Obj : Type} (T : TargetClass Obj) (s : SyncSt Obj)
    (new_state : Dict Val)
    (hclean : new_state.all (entry_clean T s.key_to_attr s.task_exposure) = true) :
    Sync.set_state T s new_state =
      ({ s with
          obj := new_state.foldl (assign_step T s.key_to_attr s.task_exposure) s.obj,
          state_snapshot := new_state }, none) := by
  unfold Sync.set_state
  rw [set_loop_eq_foldl T _ _ _ _ hclean]

theorem c2_set_state_witness :
    (([("count", Val.num 5), ("runningTasks", Val.strs []), ("length", Val.num 9),
        ("name", Val.str "b")] : Dict Val).all
        (entry_clean demoTarget demoSetSync.key_to_attr demoSetSync.task_exposure) =
        true) ∧
    Sync.set_state demoTarget demoSetSync
        [("count", Val.num 5), ("runningTasks", Val.strs []), ("length", Val.num 9),
         ("name", Val.str "b")] =
      ({ demoSetSync with
          obj := ([("count", Val.num 5), ("runningTasks", Val.strs []),
            ("length", Val.num 9), ("name", Val.str "b")] : Dict Val).foldl
              (assign_step demoTarget demoSetSync.key_to_attr demoSetSync.task_exposure)
              demoSetSync.obj,
          state_snapshot := [("count", Val.num 5), ("runningTasks", Val.strs []),
            ("length", Val.num 9), ("name", Val.str "b")] }, none) ∧
    ([("count", Val.num 5), ("runningTasks", Val.strs []), ("length", Val.num 9),
        ("name", Val.str "b")] : Dict Val).foldl
        (assign_step demoTarget demoSetSync.key_to_attr demoSetSync.task_exposure)
        demoSetSync.obj =
      [("count", Val.num 5), ("name", Val.str "b"), ("length", Val.num 1)] :=
  ⟨by decide,
    c2_set_state demoTarget demoSetSync
      [("count", Val.num 5), ("runningTasks", Val.strs []), ("length", Val.num 9),
       ("name", Val.str "b")] (by decide),
    by decide⟩

/-- C10: a SET whose state carries a wire key that is neither the
task-exposure key nor bound in key_to_attr raises KeyError at that key:
the earlier wire keys have already been validated and assigned to the
target (in iteration order), but the stored snapshot is not replaced; by
contrast, a PATCH whose operation addresses a top-level key not bound in
key_to_attr applies the operation to the snapshot and silently skips the
validate-and-assign step (no error, target unchanged). -/
theorem c10_unknown_wire_key {Obj : Type} (T : TargetClass Obj) (s : SyncSt Obj)
    (pre : Dict Val) (k : String) (v : Val) (rest : Dict Val)
    (hpre : pre.all (entry_clean T s.key_to_attr s.task_exposure) = true)
    (hte : s.task_exposure ≠ some k)
    (hmiss : alookup s.key_to_attr k = none) :
    Sync.set_state T s (pre ++ (k, v) :: rest) =
      ({ s with obj := pre.foldl (assign_step T s.key_to_attr s.task_exposure) s.obj },
        some (SetErr.keyError k)) ∧
    (∀ op snap2, PatchOp.topKey op = k →
      apply_patch s.state_snapshot [op] = some snap2 →
      Sync.patch_state T s [op] = ({ s with state_snapshot := snap2 }, none)) := by
  constructor
  · unfold Sync.set_state
    rw [set_loop_append_clean T _ _ _ _ _ hpre]
    simp [set_loop, set_entry, hte, hmiss]
  · intro op snap2 hk happ
    have hmk : modified_keys s.key_to_attr [op] = [] := by
      unfold modified_keys
      simp [hk, hmiss]
    simp only [Sync.patch_state, happ, hmk, patch_assign_loop]

theorem c10_unknown_wire_key_witness :
    (([("count", Val.num 7)] : Dict Val).all
        (entry_clean demoTarget demoSetSync.key_to_attr demoSetSync.task_exposure) =
        true ∧
      demoSetSync.task_exposure ≠ some "unknown" ∧
      alookup demoSetSync.key_to_attr "unknown" = none) ∧
    Sync.patch_state demoTarget demoSetSync [PatchOp.add "unknown" (Val.num 3)] =
      ({ demoSetSync with
          state_snapshot := upsert demoSetSync.state_snapshot "unknown" (Val.num 3) },
        none) :=
  ⟨⟨by decide, by decide, by decide⟩,
    (c10_unknown_wire_key demoTarget demoSetSync [("count", Val.num 7)] "unknown"
        (Val.num 0) [("name", Val.str "z")] (by decide) (by decide) (by decide)).2
      (PatchOp.add "unknown" (Val.num 3)) _ rfl rfl⟩

theorem alookup_eraseKey {α : Type} (d : Dict α) (k x : String) :
    alookup (eraseKey d k) x = if k = x then none else alookup d x := by
  induction d with
  | nil => simp [eraseKey, alookup]
  | cons hd tl ih =>
    obtain ⟨k0, v0⟩ := hd
    simp only [eraseKey]
    by_cases hk0 : k0 = k
    · subst hk0
      rw [if_pos rfl, ih]
      by_cases hx : k0 = x
      · subst hx
        simp [alookup]
      · simp [alookup, hx]
    · rw [if_neg hk0]
      by_cases hx : k0 = x
      · subst hx
        have hkx : ¬ k = k0 := fun he => hk0 he.symm
        simp [alookup, hkx]
      · simp [alookup, hx, ih]

theorem alookup_deregister_event (ses : SessionSt) (e x : String) :
    alookup (deregister_event ses e).event_handlers x =
      if e = x then none else alookup ses.event_handlers x := by
  unfold deregister_event
  by_cases hp : alookup ses.event_handlers e = none
  · rw [if_pos hp]
    by_cases hex : e = x
    · subst hex
      simp [hp]
    · simp [hex]
  · rw [if_neg hp]
    exact alookup_eraseKey _ _ _

theorem deregister_event_init (ses : SessionSt) (e : String) :
    (deregister_event ses e).init_handlers = ses.init_handlers := by
  unfold deregister_event
  split <;> rfl

theorem removeFirst_append_singleton (l : List Handler) (h : Handler)
    (hn : h ∉ l) : removeFirst (l ++ [h]) h = some l := by
  induction l with
  | nil => simp [removeFirst]
  | cons x xs ih =>
    rw [List.mem_cons, not_or] at hn
    rw [List.cons_append]
    simp only [removeFirst]
    rw [if_neg (fun he => hn.1 he.symm), ih hn.2]
    rfl

/-- C3: close() deregisters all six event handlers for the Sync's key
from the Session's handler table and removes its init handler from the
init list when send_on_init was set; a second close() is a no-op. -/
theorem c3_close_cleanup (ses0 : SessionSt) (key : String) (soi : Bool)
    (hinit : Handler.sendState key ∉ ses0.init_handlers) :
    ∃ st2 : CloseSt,
      close ⟨register_event_handlers ses0 key soi, false⟩ key soi = some st2 ∧
      alookup st2.session.event_handlers (get_event key) = none ∧
      alookup st2.session.event_handlers (set_event key) = none ∧
      alookup st2.session.event_handlers (patch_event key) = none ∧
      alookup st2.session.event_handlers (action_event key) = none ∧
      alookup st2.session.event_handlers (task_start_event key) = none ∧
      alookup st2.session.event_handlers (task_cancel_event key) = none ∧
      Handler.sendState key ∉ st2.session.init_handlers ∧
      close st2 key soi = some st2 := by
  have hinit1 : (register_event_handlers ses0 key soi).init_handlers =
      (if soi then ses0.init_handlers ++ [Handler.sendState key]
       else ses0.init_handlers) := by
    cases soi <;> rfl
  have hs3init : (deregister_event (deregister_event (deregister_event
      (register_event_handlers ses0 key soi) (get_event key)) (set_event key))
      (patch_event key)).init_handlers =
      (register_event_handlers ses0 key soi).init_handlers := by
    rw [deregister_event_init, deregister_event_init, deregister_event_init]
  have hrm : (if soi then
        removeFirst (deregister_event (deregister_event (deregister_event
          (register_event_handlers ses0 key soi) (get_event key)) (set_event key))
          (patch_event key)).init_handlers (Handler.sendState key)
      else some (deregister_event (deregister_event (deregister_event
          (register_event_handlers ses0 key soi) (get_event key)) (set_event key))
          (patch_event key)).init_handlers) = some ses0.init_handlers := by
    rw [hs3init, hinit1]
    cases soi
    · rfl
    · simp [removeFirst_append_singleton _ _ hinit]
  unfold close deregister
  dsimp only
  rw [hrm]
  refine ⟨_, rfl, ?_, ?_, ?_, ?_, ?_, ?_, ?_, rfl⟩
  · simp [alookup_deregister_event]
  · simp [alookup_deregister_event]
  · simp [alookup_deregister_event]
  · simp [alookup_deregister_event]
  · simp [alookup_deregister_event]
  · simp [alookup_deregister_event]
  · simpa [deregister_event_init] using hinit

theorem c3_close_cleanup_witness :
    Handler.sendState "K" ∉ demoSession0.init_handlers ∧
    ∃ st2 : CloseSt,
      close ⟨register_event_handlers demoSession0 "K" true, false⟩ "K" true =
        some st2 ∧
      alookup st2.session.event_handlers (get_event "K") = none ∧
      alookup st2.session.event_handlers (set_event "K") = none ∧
      alookup st2.session.event_handlers (patch_event "K") = none ∧
      alookup st2.session.event_handlers (action_event "K") = none ∧
      alookup st2.session.event_handlers (task_start_event "K") = none ∧
      alookup st2.session.event_handlers (task_cancel_event "K") = none ∧
      Handler.sendState "K" ∉ st2.session.init_handlers ∧
      close st2 "K" true = some st2 :=
  ⟨by decide, c3_close_cleanup demoSession0 "K" true (by decide)⟩

/-- C4: at most one running task per name — a TASK_START for an unknown
or already-running name is warned about and leaves running_tasks
unchanged, and a fresh start preserves uniqueness of the names; the task
wrapper removes the entry on completion, cancellation, and error alike,
re-syncs the exposed list exactly when task exposure is on, and on
cancellation invokes the registered task-cancel handler (if any) first,
before the cleanup that follows the re-raise. -/
theorem c4_task_discipline (factories cancels : List String) (st : TaskSt)
    (name : String) :
    (name ∉ factories →
      start_task factories st name = (st, [TaskEffect.warned name])) ∧
    (name ∈ st.running_tasks →
      start_task factories st name = (st, [TaskEffect.warned name])) ∧
    (st.running_tasks.Nodup → ((start_task factories st name).1.running_tasks).Nodup) ∧
    (∀ o : Outcome, name ∉ (run_and_pop cancels st name o).1.running_tasks) ∧
    (∀ o : Outcome, st.running_tasks.Nodup →
      ((run_and_pop cancels st name o).1.running_tasks).Nodup) ∧
    (∀ o : Outcome,
      (TaskEffect.resynced ∈ (run_and_pop cancels st name o).2 ↔ st.exposure = true)) ∧
    (name ∈ cancels →
      (run_and_pop cancels st name Outcome.cancelled).2 =
        TaskEffect.cancelHandlerCalled name ::
          (if st.exposure = true then [TaskEffect.resynced] else [])) ∧
    (∀ o : Outcome, o ≠ Outcome.cancelled →
      ∀ n, TaskEffect.cancelHandlerCalled n ∉ (run_and_pop cancels st name o).2) ∧
    (name ∉ cancels →
      ∀ n, TaskEffect.cancelHandlerCalled n ∉
        (run_and_pop cancels st name Outcome.cancelled).2) := by
  refine ⟨?_, ?_, ?_, ?_, ?_, ?_, ?_, ?_, ?_⟩
  · intro h
    simp [start_task, h]
  · intro h
    by_cases hf : name ∈ factories <;> simp [start_task, hf, h]
  · intro hnd
    by_cases hf : name ∈ factories
    · by_cases hr : name ∈ st.running_tasks
      · simpa [start_task, hf, hr] using hnd
      · have hran : (start_task factories st name).1.running_tasks =
            st.running_tasks ++ [name] := by
          simp [start_task, hf, hr]
        rw [hran, List.nodup_append]
        exact ⟨hnd, List.nodup_singleton _,
          fun a ha hb => hr ((List.mem_singleton.mp hb) ▸ ha)⟩
    · simpa [start_task, hf] using hnd
  · intro o
    simp [run_and_pop]
  · intro o hnd
    simp only [run_and_pop]
    exact hnd.filter _
  · intro o
    cases o <;> cases hexp : st.exposure <;>
      by_cases hc : name ∈ cancels <;>
        simp [run_and_pop, hexp, hc]
  · intro h
    simp [run_and_pop, h]
  · intro o ho n
    cases o <;> simp [run_and_pop] at ho ⊢
  · intro h n
    simp [run_and_pop, h]

theorem c4_task_discipline_witness :
    (("T" : String) ∈ (["T"] : List String) ∧
      ("T" : String) ∉ (["OTHER"] : List String)) ∧
    start_task ["OTHER"] ⟨["T"], true⟩ "T" = (⟨["T"], true⟩, [TaskEffect.warned "T"]) ∧
    start_task ["T"] ⟨["T"], true⟩ "T" = (⟨["T"], true⟩, [TaskEffect.warned "T"]) ∧
    "T" ∉ (run_and_pop ["T"] ⟨["T"], true⟩ "T" Outcome.cancelled).1.running_tasks :=
  ⟨⟨by decide, by decide⟩,
    (c4_task_discipline ["OTHER"] ["T"] ⟨["T"], true⟩ "T").1 (by decide),
    (c4_task_discipline ["T"] ["T"] ⟨["T"], true⟩ "T").2.1 (by decide),
    (c4_task_discipline ["T"] ["T"] ⟨["T"], true⟩ "T").2.2.2.1 Outcome.cancelled⟩

/-- C7: the ACTION handler pops the type field; an unregistered action
name is warned about with no error and no invocation; a registered one
has the remaining fields validated through its cached validator — which
accepts each parameter spelled either as the parameter name or as its
configured alias — and the handler is invoked with the validated native
values. -/
theorem c7_action_dispatch (aliasGen : Option (String → String))
    (handlers : List String) (validators : Dict (List ParamSpec))
    (action : Dict Val) (t : String)
    (ht : alookup action "type" = some (Val.str t)) :
    (t ∉ handlers → handle_action aliasGen handlers validators action =
      ActionResult.warned t) ∧
    (∀ fields, t ∈ handlers → alookup validators t = some fields →
      handle_action aliasGen handlers validators action =
        (match validate_kwargs aliasGen fields (eraseKey action "type") with
         | some kw => ActionResult.invoked t kw
         | none => ActionResult.validationFailed t)) ∧
    (∀ f : ParamSpec, ∀ rest : List ParamSpec, ∀ input : Dict Val, ∀ v v2 : Val,
      (alookup input (aliasOf aliasGen f) = some v ∨
        (alookup input (aliasOf aliasGen f) = none ∧
          alookup input f.name = some v)) →
      f.validate v = some v2 →
      validate_kwargs aliasGen (f :: rest) input =
        (validate_kwargs aliasGen rest input).map
          (fun kw => (f.name, v2) :: kw)) := by
  refine ⟨?_, ?_, ?_⟩
  · intro h
    simp [handle_action, ht, h]
  · intro fields hmem hval
    simp [handle_action, ht, hmem, hval]
  · intro f rest input v v2 hv hval
    rcases hv with hv | ⟨hna, hv⟩
    · simp [validate_kwargs, lookup_param, hv, hval]
    · simp [validate_kwargs, lookup_param, hna, hv, hval]

theorem c7_action_dispatch_witness :
    (alookup demoAction "type" = some (Val.str "UPDATE") ∧
      "UPDATE" ∉ (["OTHER"] : List String) ∧
      alookup [("xnew_name", Val.str "Jo")] (aliasOf (some demoAliasGen) demoParam) =
        some (Val.str "Jo")) ∧
    handle_action (some demoAliasGen) ["OTHER"] demoValidators demoAction =
      ActionResult.warned "UPDATE" ∧
    validate_kwargs (some demoAliasGen) [demoParam] [("xnew_name", Val.str "Jo")] =
      (validate_kwargs (some demoAliasGen) [] [("xnew_name", Val.str "Jo")]).map
        (fun kw => ("new_name", Val.str "Jo") :: kw) :=
  ⟨⟨by decide, by decide, rfl⟩,
    (c7_action_dispatch (some demoAliasGen) ["OTHER"] demoValidators demoAction
        "UPDATE" (by decide)).1 (by decide),
    (c7_action_dispatch (some demoAliasGen) ["OTHER"] demoValidators demoAction
        "UPDATE" (by decide)).2.2 demoParam [] [("xnew_name", Val.str "Jo")]
      (Val.str "Jo") (Val.str "Jo") (Or.inl rfl) rfl⟩

end WsSync
